import Mathlib

/-!
Verification development for the trading-journal bot
(src/trading_journal_bot_render.py).

The SQLite table `trades` is modelled as a list of `Trade` records in
insertion order; SQL `SELECT ... fetchone()` becomes List.find?, an
UPDATE with a WHERE clause becomes a map that patches every matching
row, and an INSERT under the UNIQUE constraint on trade_id fails when a
row with the same trade_id already exists.  Python floats are modelled
as rationals, SQL NULL as Option.none, and the nondeterministic
datetime.now() values are explicit string parameters.
-/

namespace TradingJournal

/-- One row of the `trades` table, in the column order of the
CREATE TABLE statement in init_database (the integer autoincrement id
is omitted: no modelled code reads it).  Column defaults mirror the SQL
defaults: exit-side columns NULL, commission 0, status OPEN. -/
structure Trade where
  user_id : Int
  username : String
  trade_id : String
  symbol : String
  trade_type : String
  entry_price : ℚ
  quantity : Int
  entry_date : String
  entry_time : String
  stop_loss : Option ℚ := none
  take_profit : Option ℚ := none
  trade_reason : String := ""
  setup_type : Option String := none
  risk_amount : Option ℚ := none
  exit_price : Option ℚ := none
  exit_date : Option String := none
  exit_time : Option String := none
  exit_reason : Option String := none
  pnl : Option ℚ := none
  pnl_percentage : Option ℚ := none
  commission : ℚ := 0
  status : String := "OPEN"
  created_at : String := ""
  market_price_at_entry : Option ℚ := none
  market_price_at_exit : Option ℚ := none
  deriving Repr, DecidableEq

/-- The WHERE clause `trade_id = ? AND user_id = ?` used by both the
SELECT and the UPDATE inside close_trade_in_db. -/
def matches_close (trade_id : String) (user_id : Int) (t : Trade) : Bool :=
  decide (t.trade_id = trade_id ∧ t.user_id = user_id)

/-- The row patch applied by the UPDATE statement of close_trade_in_db
to every row matching `trade_id = ? AND user_id = ?`. -/
def close_update (trade_id : String) (user_id : Int) (exit_price : ℚ)
    (exit_date exit_time exit_reason : String) (pnl pnl_percentage commission : ℚ)
    (market_price_at_exit : Option ℚ) (t : Trade) : Trade :=
  if matches_close trade_id user_id t then
    { t with
      exit_price := some exit_price
      exit_date := some exit_date
      exit_time := some exit_time
      exit_reason := some exit_reason
      pnl := some pnl
      pnl_percentage := some pnl_percentage
      commission := commission
      status := "CLOSED"
      market_price_at_exit := market_price_at_exit }
  else t

/-- close_trade_in_db (source lines 101-152): fetch the first row with
the given trade_id and user_id (no status condition), compute P&L from
its stored entry data and the supplied exit price, and update every
matching row.  Returns the Python function's boolean result together
with the table after the call.  `now_date`/`now_time` stand for the
datetime.now() strings. -/
def close_trade_in_db (db : List Trade) (trade_id : String) (exit_price : ℚ)
    (exit_reason : String) (commission : ℚ) (user_id : Int)
    (now_date now_time : String) (market_price_at_exit : Option ℚ) :
    Bool × List Trade :=
  match db.find? (matches_close trade_id user_id) with
  | none => (false, db)
  | some trade =>
    let pnl :=
      if trade.trade_type = "LONG" ∨ trade.trade_type = "CALL" then
        (exit_price - trade.entry_price) * (trade.quantity : ℚ) - commission
      else
        (trade.entry_price - exit_price) * (trade.quantity : ℚ) - commission
    let investment := trade.entry_price * (trade.quantity : ℚ)
    let pnl_percentage := if investment > 0 then pnl / investment * 100 else 0
    (true, db.map (close_update trade_id user_id exit_price now_date now_time
      exit_reason pnl pnl_percentage commission market_price_at_exit))

/-- get_trade_from_db (source lines 154-169): `SELECT * FROM trades
WHERE trade_id = ?` with fetchone; it takes no caller identity at all. -/
def get_trade_from_db (db : List Trade) (trade_id : String) : Option Trade :=
  db.find? (fun t => decide (t.trade_id = trade_id))

/-- The trade_data dict that TradeDetailsModal.on_submit assembles and
passes to save_trade_to_db: exactly the columns named by the INSERT. -/
structure TradeInput where
  user_id : Int
  username : String
  trade_id : String
  symbol : String
  trade_type : String
  entry_price : ℚ
  quantity : Int
  entry_date : String
  entry_time : String
  stop_loss : Option ℚ
  take_profit : Option ℚ
  trade_reason : String
  setup_type : Option String
  risk_amount : Option ℚ
  status : String
  market_price_at_entry : Option ℚ
  deriving Repr, DecidableEq

/-- The row the INSERT of save_trade_to_db creates: the entry-side
columns from the input dict; every column not named in the INSERT takes
its SQL default (exit fields NULL, commission 0, market_price_at_exit
NULL). -/
def save_record (d : TradeInput) (created_at : String) : Trade :=
  { user_id := d.user_id
    username := d.username
    trade_id := d.trade_id
    symbol := d.symbol
    trade_type := d.trade_type
    entry_price := d.entry_price
    quantity := d.quantity
    entry_date := d.entry_date
    entry_time := d.entry_time
    stop_loss := d.stop_loss
    take_profit := d.take_profit
    trade_reason := d.trade_reason
    setup_type := d.setup_type
    risk_amount := d.risk_amount
    status := d.status
    created_at := created_at
    market_price_at_entry := d.market_price_at_entry }

/-- save_trade_to_db (source lines 68-99): INSERT of the entry-side
columns only.  The UNIQUE constraint on trade_id makes the insert fail
when a row with the same trade_id already exists. -/
def save_trade_to_db (db : List Trade) (d : TradeInput) (created_at : String) :
    Bool × List Trade :=
  if db.any (fun t => decide (t.trade_id = d.trade_id)) then
    (false, db)
  else
    (true, db ++ [save_record d created_at])

/-- The pnl value of a row; on rows passing the `pnl IS NOT NULL`
filter this is the stored pnl. -/
def pnl_of (t : Trade) : ℚ := t.pnl.getD 0

/-- The row set read by calculate_user_analytics:
`WHERE user_id = ? AND status = 'CLOSED' AND pnl IS NOT NULL`. -/
def closed_with_pnl (db : List Trade) (user_id : Int) : List Trade :=
  db.filter (fun t => decide (t.user_id = user_id ∧ t.status = "CLOSED") && t.pnl.isSome)

/-- The analytics dict returned by calculate_user_analytics.  The
Python float('inf') sentinel for profit_factor is the ⊤ of WithTop ℚ. -/
structure Analytics where
  total_trades : Nat
  winning_trades : Nat
  losing_trades : Nat
  win_rate : ℚ
  total_pnl : ℚ
  avg_win : ℚ
  avg_loss : ℚ
  profit_factor : WithTop ℚ
  best_trade : ℚ
  worst_trade : ℚ
  deriving Repr, DecidableEq

/-- calculate_user_analytics (source lines 214-261): reads the closed
rows with a pnl for the user, returns none when there are no such
rows, and otherwise the aggregate statistics; max/min over a nonempty
list are folds from its head as in Python. -/
def calculate_user_analytics (db : List Trade) (user_id : Int) : Option Analytics :=
  match closed_with_pnl db user_id with
  | [] => none
  | t0 :: rest =>
    let trades := t0 :: rest
    let total_trades := trades.length
    let winning_trades := (trades.filter (fun t => decide (pnl_of t > 0))).length
    let losing_trades := (trades.filter (fun t => decide (pnl_of t < 0))).length
    let total_pnl := (trades.map pnl_of).sum
    let win_rate : ℚ :=
      if total_trades > 0 then ((winning_trades : ℚ) / (total_trades : ℚ)) * 100 else 0
    let avg_win : ℚ :=
      if winning_trades > 0 then
        ((trades.filter (fun t => decide (pnl_of t > 0))).map pnl_of).sum / (winning_trades : ℚ)
      else 0
    let avg_loss : ℚ :=
      if losing_trades > 0 then
        ((trades.filter (fun t => decide (pnl_of t < 0))).map pnl_of).sum / (losing_trades : ℚ)
      else 0
    let profit_factor : WithTop ℚ :=
      if losing_trades > 0 ∧ avg_loss ≠ 0 then
        ((|avg_win * (winning_trades : ℚ)| / |avg_loss * (losing_trades : ℚ)| : ℚ) : WithTop ℚ)
      else ⊤
    some {
      total_trades := total_trades
      winning_trades := winning_trades
      losing_trades := losing_trades
      win_rate := win_rate
      total_pnl := total_pnl
      avg_win := avg_win
      avg_loss := avg_loss
      profit_factor := profit_factor
      best_trade := (rest.map pnl_of).foldl max (pnl_of t0)
      worst_trade := (rest.map pnl_of).foldl min (pnl_of t0) }

/-- The numeric content of the live-P&L embed built by
create_live_pnl_embed (source lines 328-367). -/
structure LivePnl where
  live_pnl : ℚ
  live_pnl_pct : ℚ
  per_share : Option ℚ
  deriving Repr, DecidableEq

/-- create_live_pnl_embed's P&L arithmetic: the realized formula with
the supplied current price in place of an exit price and no commission
term; the per-share string is rendered only under the `quantity > 0`
guard, so the division live_pnl / quantity is never evaluated at
quantity = 0. -/
def create_live_pnl_embed (trade : Trade) (current_price : ℚ) : LivePnl :=
  let live_pnl :=
    if trade.trade_type = "LONG" ∨ trade.trade_type = "CALL" then
      (current_price - trade.entry_price) * (trade.quantity : ℚ)
    else
      (trade.entry_price - current_price) * (trade.quantity : ℚ)
  let investment := trade.entry_price * (trade.quantity : ℚ)
  let live_pnl_pct := if investment > 0 then live_pnl / investment * 100 else 0
  { live_pnl := live_pnl
    live_pnl_pct := live_pnl_pct
    per_share :=
      if trade.quantity > 0 then some (live_pnl / (trade.quantity : ℚ)) else none }

/-- The TradeManagementView live-P&L button handler (source lines
1-28): requires an API key, reads the record by trade_id alone, shows
the live embed when the record exists with status OPEN and a current
price is available.  The caller's identity is received (the
interaction user) but never consulted. -/
def live_pnl_button (db : List Trade) (trade_id : String) (caller_id : Int)
    (api_key : Bool) (current_price : Option ℚ) : Option LivePnl :=
  if api_key = false then none
  else
    match get_trade_from_db db trade_id with
    | some td =>
      if td.status = "OPEN" then
        match current_price with
        | some p => some (create_live_pnl_embed td p)
        | none => none
      else none
    | none => none

/-- Whitespace characters for the model of Python str.strip(). -/
def is_space (c : Char) : Bool := c = ' ' ∨ c = '\t' ∨ c = '\n' ∨ c = '\r'

/-- Strip leading and trailing whitespace from a character list. -/
def trim_chars (l : List Char) : List Char :=
  ((l.dropWhile is_space).reverse.dropWhile is_space).reverse

/-- Model of Python str.strip(). -/
def py_strip (s : String) : String := ⟨trim_chars s.data⟩

/-- Model of Python str.upper() (ASCII, which covers the bot's ticker
and direction inputs). -/
def py_upper (s : String) : String := ⟨s.data.map Char.toUpper⟩

/-- Value of a nonempty digit string. -/
def digits_to_nat (l : List Char) : Nat :=
  l.foldl (fun n c => n * 10 + (c.toNat - 48)) 0

/-- Model of Python int(...): optional surrounding whitespace, optional
sign, digits; anything else raises ValueError, modelled as none. -/
def py_int (s : String) : Option Int :=
  match trim_chars s.data with
  | [] => none
  | c :: cs =>
    if c = '-' then
      if cs ≠ [] ∧ cs.all Char.isDigit then some (-(digits_to_nat cs : Int)) else none
    else if c = '+' then
      if cs ≠ [] ∧ cs.all Char.isDigit then some ((digits_to_nat cs : Int)) else none
    else if (c :: cs).all Char.isDigit then some ((digits_to_nat (c :: cs) : Int)) else none

/-- Model of Python float(...) on the plain decimal forms the bot's
price and commission fields use: optional sign, digits, optional
fractional part.  Inputs outside this grammar (as in Python outside
the float grammar) yield none, which the handlers turn into a
ValueError path that stores nothing. -/
def py_float (s : String) : Option ℚ :=
  match trim_chars s.data with
  | [] => none
  | c :: cs =>
    let sign : ℚ := if c = '-' then -1 else 1
    let body := if c = '-' ∨ c = '+' then cs else c :: cs
    match body.splitOn '.' with
    | [ip] =>
      if ip ≠ [] ∧ ip.all Char.isDigit then some (sign * (digits_to_nat ip : ℚ)) else none
    | [ip, fp] =>
      if (ip ≠ [] ∨ fp ≠ []) ∧ ip.all Char.isDigit ∧ fp.all Char.isDigit then
        some (sign * ((digits_to_nat ip : ℚ) + (digits_to_nat fp : ℚ) / (10 ^ fp.length : ℚ)))
      else none
    | _ => none

/-- One optional numeric field of TradeDetailsModal:
`float(v) if v else None`; the outer some/none distinguishes a
successful parse (or empty field) from a ValueError. -/
def parse_optional_float (s : String) : Option (Option ℚ) :=
  if s = "" then some none
  else
    match py_float s with
    | some q => some (some q)
    | none => none

/-- The raw text of the two entry modals (TradeEntryModal and
TradeDetailsModal) as submitted by the user. -/
structure OpenForm where
  symbol : String
  trade_type : String
  entry_price : String
  quantity : String
  trade_reason : String
  stop_loss : String
  take_profit : String
  setup_type : String
  risk_amount : String
  deriving Repr, DecidableEq

/-- The composed open operation: TradeEntryModal.on_submit (source
lines 1403-1474) followed by TradeDetailsModal.on_submit (source lines
1525-1581).  External effects are parameters: `symbol_valid` is the
Polygon validate_symbol verdict, `api_key` whether POLYGON_API_KEY is
set, `quote` the current market price if any, `ts` the
strftime timestamp making up the trade id, and the date/time strings
stand for datetime.now().  Any int()/float() ValueError, a failed
symbol validation (with an API key), or an unresolvable MARKET price
aborts before anything is stored.  The parsed quantity, entry price
and normalized trade type are passed through with no positivity or
enum-membership check. -/
def open_submit (db : List Trade) (form : OpenForm) (user_id : Int) (username : String)
    (symbol_valid api_key : Bool) (quote : Option ℚ)
    (ts entry_date entry_time created_at : String) : Bool × List Trade :=
  match py_int form.quantity with
  | none => (false, db)
  | some quantity =>
    let symbol := py_strip (py_upper form.symbol)
    let trade_type := py_strip (py_upper form.trade_type)
    if symbol_valid = false ∧ api_key = true then (false, db)
    else
      let entry_resolved : Option (ℚ × Option ℚ) :=
        if py_upper (py_strip form.entry_price) = "MARKET" then
          match quote with
          | some p => some (p, some p)
          | none => none
        else
          match py_float (py_strip form.entry_price) with
          | some p => some (p, quote)
          | none => none
      match entry_resolved with
      | none => (false, db)
      | some (entry_price, market_price) =>
        let trade_id := symbol ++ "_" ++ ts
        match parse_optional_float form.stop_loss, parse_optional_float form.take_profit,
            parse_optional_float form.risk_amount with
        | some stop_loss, some take_profit, some risk_amount =>
          let setup_type :=
            if form.setup_type = "" then none else some (py_strip form.setup_type)
          save_trade_to_db db
            { user_id := user_id
              username := username
              trade_id := trade_id
              symbol := symbol
              trade_type := trade_type
              entry_price := entry_price
              quantity := quantity
              entry_date := entry_date
              entry_time := entry_time
              stop_loss := stop_loss
              take_profit := take_profit
              trade_reason := py_strip form.trade_reason
              setup_type := setup_type
              risk_amount := risk_amount
              status := "OPEN"
              market_price_at_entry := market_price } created_at
        | _, _, _ => (false, db)

/-- The P&L value close_trade_in_db computes from the fetched row and
the supplied exit price and commission (the if/else on trade_type at
source lines 121-124). -/
def close_pnl_value (tr : Trade) (exit_price commission : ℚ) : ℚ :=
  if tr.trade_type = "LONG" ∨ tr.trade_type = "CALL" then
    (exit_price - tr.entry_price) * (tr.quantity : ℚ) - commission
  else
    (tr.entry_price - exit_price) * (tr.quantity : ℚ) - commission

/-- The percentage value close_trade_in_db computes (source lines
127-128). -/
def close_pct_value (tr : Trade) (exit_price commission : ℚ) : ℚ :=
  if tr.entry_price * (tr.quantity : ℚ) > 0 then
    close_pnl_value tr exit_price commission / (tr.entry_price * (tr.quantity : ℚ)) * 100
  else 0

/-- A trade with its informational market-price fields blanked;
two tables equal after strip_market differ at most in those fields. -/
def strip_market (t : Trade) : Trade :=
  { t with market_price_at_entry := none, market_price_at_exit := none }

/-- A CLOSED long trade of user 7 used by the concrete checks. -/
def sample_closed : Trade :=
  { user_id := 7
    username := "u"
    trade_id := "AAPL_1"
    symbol := "AAPL"
    trade_type := "LONG"
    entry_price := 100
    quantity := 10
    entry_date := "d1"
    entry_time := "t1"
    status := "CLOSED"
    exit_price := some 110
    exit_date := some "d2"
    exit_time := some "t2"
    exit_reason := some "r"
    pnl := some 100
    pnl_percentage := some 10
    commission := 0 }

/-- An OPEN long trade of user 7 used by the concrete checks. -/
def sample_open : Trade :=
  { user_id := 7
    username := "u"
    trade_id := "MSFT_1"
    symbol := "MSFT"
    trade_type := "LONG"
    entry_price := 100
    quantity := 10
    entry_date := "d1"
    entry_time := "t1"
    status := "OPEN" }

/-- A CLOSED trade of user 7 carrying a given pnl, for analytics
checks. -/
def sample_pnl_trade (trade_id : String) (p : ℚ) : Trade :=
  { user_id := 7
    username := "u"
    trade_id := trade_id
    symbol := "S"
    trade_type := "LONG"
    entry_price := 1
    quantity := 1
    entry_date := "d"
    entry_time := "t"
    status := "CLOSED"
    pnl := some p }

/-- The pnl multiset +100, -50, +200, -50, 0 of the spec's worked
analytics example. -/
def sample_analytics_db : List Trade :=
  [sample_pnl_trade "T1" 100, sample_pnl_trade "T2" (-50), sample_pnl_trade "T3" 200,
   sample_pnl_trade "T4" (-50), sample_pnl_trade "T5" 0]

/-- Form input with a negative quantity and a direction outside the
four accepted tokens. -/
def form_invalid_values : OpenForm :=
  { symbol := "aapl"
    trade_type := "banana"
    entry_price := "10"
    quantity := "-5"
    trade_reason := "r"
    stop_loss := ""
    take_profit := ""
    setup_type := ""
    risk_amount := "" }

/-- Form input whose quantity does not parse as an integer. -/
def form_bad_quantity : OpenForm :=
  { symbol := "AAPL"
    trade_type := "LONG"
    entry_price := "10"
    quantity := "ten"
    trade_reason := "r"
    stop_loss := ""
    take_profit := ""
    setup_type := ""
    risk_amount := "" }

/-- Well-formed form input using the MARKET price sentinel. -/
def form_market : OpenForm :=
  { symbol := "AAPL"
    trade_type := "LONG"
    entry_price := "MARKET"
    quantity := "3"
    trade_reason := "r"
    stop_loss := ""
    take_profit := ""
    setup_type := ""
    risk_amount := "" }

/-- The OPEN sample trade carrying an informational market price at
entry. -/
def sample_open_market : Trade :=
  { sample_open with market_price_at_entry := some 99 }

/-- An OPEN trade with quantity 0, exercising the per-share guard. -/
def sample_zero_qty : Trade :=
  { sample_open with trade_id := "ZQ_1", quantity := 0 }

/-- When the lookup by trade id and owner finds a row, close_trade_in_db
reports success and patches every matching row with the values computed
from the found row. -/
theorem close_trade_in_db_found (db : List Trade) (tid exit_reason now_date now_time : String)
    (exit_price commission : ℚ) (uid : Int) (mp : Option ℚ) (tr : Trade)
    (h : db.find? (matches_close tid uid) = some tr) :
    close_trade_in_db db tid exit_price exit_reason commission uid now_date now_time mp =
      (true, db.map (close_update tid uid exit_price now_date now_time exit_reason
        (close_pnl_value tr exit_price commission)
        (close_pct_value tr exit_price commission) commission mp)) := by
  simp only [close_trade_in_db, h, close_pnl_value, close_pct_value]

/-- C1 counterexample: on a table holding one CLOSED trade of user 7,
a second close by user 7 returns success rather than a rejection, and
the stored exit_reason changes from some "r" to some "again" — the
record is not left unchanged. -/
theorem close_reclose_counterexample :
    sample_closed.status = "CLOSED" ∧
    (close_trade_in_db [sample_closed] "AAPL_1" 120 "again" 1 7 "d3" "t3" none).1 = true ∧
    (close_trade_in_db [sample_closed] "AAPL_1" 120 "again" 1 7 "d3" "t3" none).2.map
      (fun t => t.exit_reason) = [some "again"] ∧
    sample_closed.exit_reason = some "r" :=
  ⟨rfl, rfl, rfl, rfl⟩

/-- C1 amended: a close call by the owner on a trade that is already
CLOSED is not rejected — close_trade_in_db checks no status, reports
success, and overwrites exit price, exit date/time, exit reason, pnl,
pnl percentage and commission of every row of that trade id and owner
with values recomputed from the new call's arguments. -/
theorem close_reclose_overwrites (db : List Trade) (tid exit_reason now_date now_time : String)
    (exit_price commission : ℚ) (uid : Int) (mp : Option ℚ) (tr : Trade)
    (h : db.find? (matches_close tid uid) = some tr) (hclosed : tr.status = "CLOSED") :
    (close_trade_in_db db tid exit_price exit_reason commission uid now_date now_time mp).1 = true ∧
    ∀ t' ∈ (close_trade_in_db db tid exit_price exit_reason commission uid now_date now_time mp).2,
      t'.trade_id = tid → t'.user_id = uid →
        t'.exit_price = some exit_price ∧ t'.exit_date = some now_date ∧
        t'.exit_time = some now_time ∧ t'.exit_reason = some exit_reason ∧
        t'.pnl = some (close_pnl_value tr exit_price commission) ∧
        t'.pnl_percentage = some (close_pct_value tr exit_price commission) ∧
        t'.commission = commission ∧ t'.status = "CLOSED" := by
  rw [close_trade_in_db_found db tid exit_reason now_date now_time exit_price commission uid mp tr h]
  refine ⟨rfl, ?_⟩
  intro t' ht' hid huid
  obtain ⟨t0, ht0, rfl⟩ := List.mem_map.1 ht'
  by_cases hm : matches_close tid uid t0
  · simp [close_update, hm]
  · exfalso
    simp only [close_update, hm, Bool.false_eq_true, if_false] at hid huid
    exact hm (by simp [matches_close, hid, huid])

/-- C1 witness: the amended statement holds concretely on the one-row
table of the CLOSED sample trade. -/
theorem close_reclose_overwrites_witness :
    ([sample_closed].find? (matches_close "AAPL_1" 7) = some sample_closed ∧
      sample_closed.status = "CLOSED") ∧
    ((close_trade_in_db [sample_closed] "AAPL_1" 120 "again" 1 7 "d3" "t3" none).1 = true ∧
    ∀ t' ∈ (close_trade_in_db [sample_closed] "AAPL_1" 120 "again" 1 7 "d3" "t3" none).2,
      t'.trade_id = "AAPL_1" → t'.user_id = 7 →
        t'.exit_price = some 120 ∧ t'.exit_date = some "d3" ∧
        t'.exit_time = some "t3" ∧ t'.exit_reason = some "again" ∧
        t'.pnl = some (close_pnl_value sample_closed 120 1) ∧
        t'.pnl_percentage = some (close_pct_value sample_closed 120 1) ∧
        t'.commission = 1 ∧ t'.status = "CLOSED") :=
  ⟨⟨rfl, rfl⟩, close_reclose_overwrites [sample_closed] "AAPL_1" "again" "d3" "t3" 120 1 7 none
    sample_closed rfl rfl⟩

/-- C2: every row persisted by a close carries the directional P&L —
exit minus entry for LONG and CALL, entry minus exit for SHORT and PUT,
times quantity, minus commission — together with the percentage pnl
over investment times 100 when the investment entry_price * quantity is
positive and 0 otherwise; at exit_price = entry_price the pnl is
exactly minus the commission. -/
theorem close_persists_pnl_formula (db : List Trade)
    (tid exit_reason now_date now_time : String)
    (exit_price commission : ℚ) (uid : Int) (mp : Option ℚ) (tr : Trade)
    (h : db.find? (matches_close tid uid) = some tr) :
    ∀ t' ∈ (close_trade_in_db db tid exit_price exit_reason commission uid now_date now_time mp).2,
      t'.trade_id = tid → t'.user_id = uid →
      ∃ p : ℚ, t'.pnl = some p ∧
        ((tr.trade_type = "LONG" ∨ tr.trade_type = "CALL") →
          p = (exit_price - tr.entry_price) * (tr.quantity : ℚ) - commission) ∧
        ((tr.trade_type = "SHORT" ∨ tr.trade_type = "PUT") →
          p = (tr.entry_price - exit_price) * (tr.quantity : ℚ) - commission) ∧
        t'.pnl_percentage = some (if 0 < tr.entry_price * (tr.quantity : ℚ) then
          p / (tr.entry_price * (tr.quantity : ℚ)) * 100 else 0) ∧
        (exit_price = tr.entry_price → p = -commission) := by
  rw [close_trade_in_db_found db tid exit_reason now_date now_time exit_price commission uid mp tr h]
  intro t' ht' hid huid
  obtain ⟨t0, ht0, rfl⟩ := List.mem_map.1 ht'
  by_cases hm : matches_close tid uid t0
  · refine ⟨close_pnl_value tr exit_price commission, ?_, ?_, ?_, ?_, ?_⟩
    · simp [close_update, hm]
    · intro hdir
      simp [close_pnl_value, hdir]
    · intro hdir
      have hnot : ¬(tr.trade_type = "LONG" ∨ tr.trade_type = "CALL") := by
        rcases hdir with h1 | h1 <;> rw [h1] <;> decide
      simp [close_pnl_value, hnot]
    · simp [close_update, hm, close_pct_value, gt_iff_lt]
    · intro he
      unfold close_pnl_value
      split <;> rw [he] <;> ring
  · exfalso
    simp only [close_update, hm, Bool.false_eq_true, if_false] at hid huid
    exact hm (by simp [matches_close, hid, huid])

/-- C2 witness: closing the OPEN sample trade (LONG, entry 100,
quantity 10) at 120 with commission 1 persists
pnl = (120 - 100) * 10 - 1. -/
theorem close_persists_pnl_formula_witness :
    ([sample_open].find? (matches_close "MSFT_1" 7) = some sample_open) ∧
    ∃ t' : Trade, ∃ p : ℚ,
      t' ∈ (close_trade_in_db [sample_open] "MSFT_1" 120 "out" 1 7 "d3" "t3" none).2 ∧
      t'.pnl = some p ∧
      p = (120 - 100) * ((10 : Int) : ℚ) - 1 := by
  refine ⟨rfl, ?_⟩
  have h := close_persists_pnl_formula [sample_open] "MSFT_1" "out" "d3" "t3" 120 1 7 none
    sample_open rfl
  obtain ⟨p, hp, hLC, _, _, _⟩ := h _ (List.Mem.head _) rfl rfl
  exact ⟨_, p, List.Mem.head _, hp, hLC (Or.inl rfl)⟩

/-- C4: when no row has the requested trade id, and likewise when rows
with that trade id exist but none belongs to the calling user, the
close call returns the same not-found outcome — the failure flag with
the table unchanged — so the two cases are observably identical and a
non-owner cannot learn whether a foreign trade id exists. -/
theorem close_notfound_uniform (db_missing db_other : List Trade)
    (tid exit_reason now_date now_time : String) (exit_price commission : ℚ)
    (uid : Int) (mp : Option ℚ)
    (hmissing : ∀ tr ∈ db_missing, tr.trade_id ≠ tid)
    (hother : ∀ tr ∈ db_other, tr.trade_id = tid → tr.user_id ≠ uid) :
    close_trade_in_db db_missing tid exit_price exit_reason commission uid now_date now_time mp
      = (false, db_missing) ∧
    close_trade_in_db db_other tid exit_price exit_reason commission uid now_date now_time mp
      = (false, db_other) ∧
    (close_trade_in_db db_missing tid exit_price exit_reason commission uid now_date now_time mp).1
      = (close_trade_in_db db_other tid exit_price exit_reason commission uid now_date now_time mp).1 := by
  have f1 : db_missing.find? (matches_close tid uid) = none := by
    rw [List.find?_eq_none]
    intro x hx
    simp only [matches_close, decide_eq_true_eq, not_and]
    intro h1 _
    exact hmissing x hx h1
  have f2 : db_other.find? (matches_close tid uid) = none := by
    rw [List.find?_eq_none]
    intro x hx
    simp only [matches_close, decide_eq_true_eq, not_and]
    exact hother x hx
  refine ⟨?_, ?_, ?_⟩ <;> simp [close_trade_in_db, f1, f2]

/-- C4 witness: user 8 closing "MSFT_1" against an empty table and
against a table where "MSFT_1" belongs to user 7 gets the identical
not-found outcome. -/
theorem close_notfound_uniform_witness :
    ((∀ tr ∈ ([] : List Trade), tr.trade_id ≠ "MSFT_1") ∧
      (∀ tr ∈ [sample_open], tr.trade_id = "MSFT_1" → tr.user_id ≠ 8)) ∧
    (close_trade_in_db [] "MSFT_1" 120 "out" 1 8 "d3" "t3" none = (false, []) ∧
      close_trade_in_db [sample_open] "MSFT_1" 120 "out" 1 8 "d3" "t3" none
        = (false, [sample_open]) ∧
      (close_trade_in_db [] "MSFT_1" 120 "out" 1 8 "d3" "t3" none).1
        = (close_trade_in_db [sample_open] "MSFT_1" 120 "out" 1 8 "d3" "t3" none).1) := by
  have h1 : ∀ tr ∈ ([] : List Trade), tr.trade_id ≠ "MSFT_1" := by simp
  have h2 : ∀ tr ∈ [sample_open], tr.trade_id = "MSFT_1" → tr.user_id ≠ 8 := by
    intro tr htr
    simp only [List.mem_singleton] at htr
    subst htr
    intro _
    decide
  exact ⟨⟨h1, h2⟩, close_notfound_uniform [] [sample_open] "MSFT_1" "out" "d3" "t3" 120 1 8 none h1 h2⟩

/-- C3 counterexample: a form whose quantity parses to the non-positive
integer -5 and whose direction "banana" is outside the four accepted
tokens is not rejected: the open flow succeeds and stores a record
(quantity -5, direction normalized to "BANANA", status OPEN), contrary
to the claim that no record is stored for such input. -/
theorem open_accepts_invalid_counterexample :
    py_int form_invalid_values.quantity = some (-5) ∧ ((-5 : Int) ≤ 0) ∧
    form_invalid_values.trade_type = "banana" ∧
    (open_submit [] form_invalid_values 1 "u" true false none "TS" "d" "t" "c").1 = true ∧
    (open_submit [] form_invalid_values 1 "u" true false none "TS" "d" "t" "c").2.map
      (fun t => (t.quantity, t.trade_type, t.status)) = [(-5, "BANANA", "OPEN")] :=
  ⟨rfl, by decide, rfl, rfl, rfl⟩

/-- C3 amended: the open flow rejects malformed numeric input before
persisting anything — a quantity that does not parse as an integer, or
a non-MARKET entry price that does not parse as a decimal, stores
nothing — but it checks neither positivity of quantity or entry price
nor membership of the direction in LONG/SHORT/CALL/PUT: whenever the
parses succeed and the generated trade id is fresh, a record is stored
carrying the parsed values verbatim, with the direction merely
uppercased and the status OPEN. -/
theorem open_validation_amended (db : List Trade) (form : OpenForm) (uid : Int)
    (username : String) (sv key : Bool) (quote : Option ℚ) (ts ed et ca : String) :
    (py_int form.quantity = none →
      open_submit db form uid username sv key quote ts ed et ca = (false, db)) ∧
    (∀ q : Int, py_int form.quantity = some q → ¬(sv = false ∧ key = true) →
      py_upper (py_strip form.entry_price) ≠ "MARKET" →
      py_float (py_strip form.entry_price) = none →
      open_submit db form uid username sv key quote ts ed et ca = (false, db)) ∧
    (∀ (q : Int) (p : ℚ) (sl tp ra : Option ℚ),
      py_int form.quantity = some q → ¬(sv = false ∧ key = true) →
      py_upper (py_strip form.entry_price) ≠ "MARKET" →
      py_float (py_strip form.entry_price) = some p →
      parse_optional_float form.stop_loss = some sl →
      parse_optional_float form.take_profit = some tp →
      parse_optional_float form.risk_amount = some ra →
      db.any (fun t => decide (t.trade_id = py_strip (py_upper form.symbol) ++ "_" ++ ts)) = false →
      open_submit db form uid username sv key quote ts ed et ca =
        (true, db ++ [{
          user_id := uid
          username := username
          trade_id := py_strip (py_upper form.symbol) ++ "_" ++ ts
          symbol := py_strip (py_upper form.symbol)
          trade_type := py_strip (py_upper form.trade_type)
          entry_price := p
          quantity := q
          entry_date := ed
          entry_time := et
          stop_loss := sl
          take_profit := tp
          trade_reason := py_strip form.trade_reason
          setup_type := if form.setup_type = "" then none else some (py_strip form.setup_type)
          risk_amount := ra
          status := "OPEN"
          created_at := ca
          market_price_at_entry := quote }])) := by
  refine ⟨?_, ?_, ?_⟩
  · intro hq
    simp [open_submit, hq]
  · intro q hq hvk hm hp
    simp [open_submit, hq, hvk, hm, hp]
  · intro q p sl tp ra hq hvk hm hp hsl htp hra hany
    simp only [open_submit, hq, if_neg hvk, if_neg hm, hp, hsl, htp, hra,
      save_trade_to_db, save_record, hany, Bool.false_eq_true, if_false]

/-- C3 witness: a non-integer quantity stores nothing, while a negative
quantity with an unknown direction token is stored successfully. -/
theorem open_validation_amended_witness :
    (py_int form_bad_quantity.quantity = none ∧
      open_submit [] form_bad_quantity 1 "u" true false none "TS" "d" "t" "c" = (false, [])) ∧
    (py_int form_invalid_values.quantity = some (-5) ∧
      (open_submit [] form_invalid_values 1 "u" true false none "TS" "d" "t" "c").1 = true) := by
  refine ⟨⟨rfl, ?_⟩, ⟨rfl, ?_⟩⟩
  · exact (open_validation_amended [] form_bad_quantity 1 "u" true false none "TS" "d" "t" "c").1 rfl
  · rw [(open_validation_amended [] form_invalid_values 1 "u" true false none "TS" "d" "t" "c").2.2
      (-5) (1 * ((10 : Nat) : ℚ)) none none none rfl (by simp) (by decide) rfl rfl rfl rfl rfl]

/-- Each row lands in exactly one of the winning, losing and breakeven
buckets. -/
theorem pnl_bucket_partition (l : List Trade) :
    (l.filter (fun t => decide (pnl_of t > 0))).length
      + (l.filter (fun t => decide (pnl_of t < 0))).length
      + (l.filter (fun t => decide (pnl_of t = 0))).length = l.length := by
  induction l with
  | nil => rfl
  | cons a l ih =>
    simp only [gt_iff_lt] at ih ⊢
    rcases lt_trichotomy (pnl_of a) 0 with h | h | h
    · have e1 : decide (0 < pnl_of a) = false := decide_eq_false (not_lt.mpr h.le)
      have e2 : decide (pnl_of a < 0) = true := decide_eq_true h
      have e3 : decide (pnl_of a = 0) = false := decide_eq_false h.ne
      simp [List.filter_cons, e1, e2, e3]
      omega
    · have e1 : decide (0 < pnl_of a) = false := decide_eq_false (by rw [h]; exact lt_irrefl 0)
      have e2 : decide (pnl_of a < 0) = false := decide_eq_false (by rw [h]; exact lt_irrefl 0)
      have e3 : decide (pnl_of a = 0) = true := decide_eq_true h
      simp [List.filter_cons, e1, e2, e3]
      omega
    · have e1 : decide (0 < pnl_of a) = true := decide_eq_true h
      have e2 : decide (pnl_of a < 0) = false := decide_eq_false (not_lt.mpr h.le)
      have e3 : decide (pnl_of a = 0) = false := decide_eq_false h.ne.symm
      simp [List.filter_cons, e1, e2, e3]
      omega

/-- A left fold of max over a list starting at a is a or a member. -/
theorem foldl_max_mem (l : List ℚ) (a : ℚ) : l.foldl max a = a ∨ l.foldl max a ∈ l := by
  induction l generalizing a with
  | nil => exact Or.inl rfl
  | cons b l ih =>
    rcases ih (max a b) with h | h
    · rcases le_total a b with hab | hba
      · right
        rw [List.foldl_cons, h, max_eq_right hab]
        exact List.mem_cons_self b l
      · left
        rw [List.foldl_cons, h, max_eq_left hba]
    · right
      rw [List.foldl_cons]
      exact List.mem_cons_of_mem b h

/-- A left fold of max over a list bounds the seed and every member. -/
theorem foldl_max_le (l : List ℚ) (a : ℚ) :
    a ≤ l.foldl max a ∧ ∀ x ∈ l, x ≤ l.foldl max a := by
  induction l generalizing a with
  | nil => exact ⟨le_refl a, by simp⟩
  | cons b l ih =>
    obtain ⟨h1, h2⟩ := ih (max a b)
    rw [List.foldl_cons]
    refine ⟨le_trans (le_max_left a b) h1, ?_⟩
    intro x hx
    rcases List.mem_cons.1 hx with rfl | hx
    · exact le_trans (le_max_right a x) h1
    · exact h2 x hx

/-- A left fold of min over a list starting at a is a or a member. -/
theorem foldl_min_mem (l : List ℚ) (a : ℚ) : l.foldl min a = a ∨ l.foldl min a ∈ l := by
  induction l generalizing a with
  | nil => exact Or.inl rfl
  | cons b l ih =>
    rcases ih (min a b) with h | h
    · rcases le_total a b with hab | hba
      · left
        rw [List.foldl_cons, h, min_eq_left hab]
      · right
        rw [List.foldl_cons, h, min_eq_right hba]
        exact List.mem_cons_self b l
    · right
      rw [List.foldl_cons]
      exact List.mem_cons_of_mem b h

/-- A left fold of min over a list lower-bounds the seed and every
member. -/
theorem foldl_min_le (l : List ℚ) (a : ℚ) :
    l.foldl min a ≤ a ∧ ∀ x ∈ l, l.foldl min a ≤ x := by
  induction l generalizing a with
  | nil => exact ⟨le_refl a, by simp⟩
  | cons b l ih =>
    obtain ⟨h1, h2⟩ := ih (min a b)
    rw [List.foldl_cons]
    refine ⟨le_trans h1 (min_le_left a b), ?_⟩
    intro x hx
    rcases List.mem_cons.1 hx with rfl | hx
    · exact le_trans h1 (min_le_right a x)
    · exact h2 x hx

/-- C5: calculate_user_analytics reads exactly the rows of the user
with status CLOSED and a pnl present, returns none (not an error) when
that set is empty and a value depending only on that set otherwise;
winners are the rows with pnl above zero, losers those below zero, a
breakeven pnl of zero lands in neither bucket, the win rate is winners
over total times 100, total pnl is the sum, the averages divide the
bucket sums by the bucket counts, and best/worst trade are the maximum
and minimum pnl of the set; on the pnl multiset +100, -50, +200, -50, 0
this yields exactly the spec's worked example. -/
theorem analytics_characterization (db : List Trade) (uid : Int) :
    (calculate_user_analytics db uid = none ↔ closed_with_pnl db uid = []) ∧
    (∀ db2 : List Trade, closed_with_pnl db uid = closed_with_pnl db2 uid →
      calculate_user_analytics db uid = calculate_user_analytics db2 uid) ∧
    (∀ a : Analytics, calculate_user_analytics db uid = some a →
      a.total_trades = (closed_with_pnl db uid).length ∧
      a.winning_trades = ((closed_with_pnl db uid).filter (fun t => decide (pnl_of t > 0))).length ∧
      a.losing_trades = ((closed_with_pnl db uid).filter (fun t => decide (pnl_of t < 0))).length ∧
      a.winning_trades + a.losing_trades
        + ((closed_with_pnl db uid).filter (fun t => decide (pnl_of t = 0))).length
        = a.total_trades ∧
      a.win_rate = (a.winning_trades : ℚ) / (a.total_trades : ℚ) * 100 ∧
      a.total_pnl = ((closed_with_pnl db uid).map pnl_of).sum ∧
      a.avg_win = (if 0 < a.winning_trades then
        (((closed_with_pnl db uid).filter (fun t => decide (pnl_of t > 0))).map pnl_of).sum
          / (a.winning_trades : ℚ) else 0) ∧
      a.avg_loss = (if 0 < a.losing_trades then
        (((closed_with_pnl db uid).filter (fun t => decide (pnl_of t < 0))).map pnl_of).sum
          / (a.losing_trades : ℚ) else 0) ∧
      a.best_trade ∈ (closed_with_pnl db uid).map pnl_of ∧
      (∀ x ∈ (closed_with_pnl db uid).map pnl_of, x ≤ a.best_trade) ∧
      a.worst_trade ∈ (closed_with_pnl db uid).map pnl_of ∧
      (∀ x ∈ (closed_with_pnl db uid).map pnl_of, a.worst_trade ≤ x)) ∧
    calculate_user_analytics sample_analytics_db 7 = some {
      total_trades := 5
      winning_trades := 2
      losing_trades := 2
      win_rate := 40
      total_pnl := 200
      avg_win := 150
      avg_loss := -50
      profit_factor := ((3 : ℚ) : WithTop ℚ)
      best_trade := 200
      worst_trade := -50 } := by
  refine ⟨?_, ?_, ?_, ?_⟩
  · cases h : closed_with_pnl db uid <;> simp [calculate_user_analytics, h]
  · intro db2 h
    unfold calculate_user_analytics
    rw [h]
  · intro a ha
    cases hc : closed_with_pnl db uid with
    | nil =>
      rw [calculate_user_analytics, hc] at ha
      exact absurd ha (by simp)
    | cons t0 rest =>
      rw [calculate_user_analytics, hc] at ha
      simp only [Option.some.injEq] at ha
      subst ha
      refine ⟨rfl, rfl, rfl, pnl_bucket_partition (t0 :: rest), ?_, rfl, rfl, rfl, ?_, ?_, ?_, ?_⟩
      · exact if_pos (Nat.succ_pos rest.length)
      · rcases foldl_max_mem (rest.map pnl_of) (pnl_of t0) with h | h
        · rw [List.map_cons, h]
          exact List.mem_cons_self _ _
        · exact List.mem_cons_of_mem _ h
      · intro x hx
        rcases List.mem_cons.1 hx with rfl | hx
        · exact (foldl_max_le (rest.map pnl_of) (pnl_of t0)).1
        · exact (foldl_max_le (rest.map pnl_of) (pnl_of t0)).2 x hx
      · rcases foldl_min_mem (rest.map pnl_of) (pnl_of t0) with h | h
        · rw [List.map_cons, h]
          exact List.mem_cons_self _ _
        · exact List.mem_cons_of_mem _ h
      · intro x hx
        rcases List.mem_cons.1 hx with rfl | hx
        · exact (foldl_min_le (rest.map pnl_of) (pnl_of t0)).1
        · exact (foldl_min_le (rest.map pnl_of) (pnl_of t0)).2 x hx
  · simp [calculate_user_analytics, closed_with_pnl, sample_analytics_db, sample_pnl_trade,
      List.filter]
    norm_num [pnl_of]
    simp

/-- C5 witness: the characterization applied to the worked example's
five closed trades. -/
theorem analytics_characterization_witness :
    (∃ a : Analytics, calculate_user_analytics sample_analytics_db 7 = some a ∧
      a.winning_trades + a.losing_trades
        + ((closed_with_pnl sample_analytics_db 7).filter (fun t => decide (pnl_of t = 0))).length
        = a.total_trades ∧
      a.total_trades = 5 ∧ a.winning_trades = 2 ∧ a.losing_trades = 2) := by
  obtain ⟨hc1, hc2, hc3, hc4⟩ := analytics_characterization sample_analytics_db 7
  exact ⟨_, hc4, (hc3 _ hc4).2.2.2.1, rfl, rfl, rfl⟩

/-- C6: in the analytics result, the profit factor equals
abs(avgWin * winningTrades) / abs(avgLoss * losingTrades) whenever
losingTrades is positive and avgLoss nonzero, and is the
positive-infinity sentinel ⊤ otherwise; the sentinel differs from
every finite rational, and in particular a user whose closed trades
show no losses gets ⊤, not a number. -/
theorem profit_factor_spec (db : List Trade) (uid : Int) (a : Analytics)
    (h : calculate_user_analytics db uid = some a) :
    ((0 < a.losing_trades ∧ a.avg_loss ≠ 0) →
      a.profit_factor = ((|a.avg_win * (a.winning_trades : ℚ)| /
        |a.avg_loss * (a.losing_trades : ℚ)| : ℚ) : WithTop ℚ)) ∧
    (¬(0 < a.losing_trades ∧ a.avg_loss ≠ 0) → a.profit_factor = ⊤) ∧
    (∀ q : ℚ, ¬((⊤ : WithTop ℚ) = ((q : ℚ) : WithTop ℚ))) ∧
    (a.losing_trades = 0 → a.profit_factor = ⊤) := by
  cases hc : closed_with_pnl db uid with
  | nil =>
    rw [calculate_user_analytics, hc] at h
    exact absurd h (by simp)
  | cons t0 rest =>
    rw [calculate_user_analytics, hc] at h
    simp only [Option.some.injEq] at h
    subst h
    refine ⟨?_, ?_, ?_, ?_⟩
    · intro hcnd
      exact if_pos hcnd
    · intro hcnd
      exact if_neg hcnd
    · intro q
      exact WithTop.top_ne_coe
    · intro h0
      apply if_neg
      rintro ⟨h1, _⟩
      simp only [gt_iff_lt] at h1
      have h0' : (List.filter (fun t => decide (pnl_of t < 0)) (t0 :: rest)).length = 0 := h0
      omega

/-- C6 witness: a user with a single winning closed trade gets the
infinity sentinel. -/
theorem profit_factor_spec_witness :
    (calculate_user_analytics [sample_pnl_trade "W1" 100] 7).isSome = true ∧
    ∃ a : Analytics, calculate_user_analytics [sample_pnl_trade "W1" 100] 7 = some a ∧
      a.losing_trades = 0 ∧ a.profit_factor = ⊤ := by
  refine ⟨rfl, _, rfl, rfl, ?_⟩
  exact (profit_factor_spec [sample_pnl_trade "W1" 100] 7 _ rfl).2.2.2 rfl

/-- C7: the market-price fields are purely informational for closing
P&L — running the close on two tables that agree except for the
market-price columns, with any two values of the market price passed
alongside the close, produces the same success flag and identical
persisted pnl and pnlPercent on every row. -/
theorem market_price_informational (db1 db2 : List Trade)
    (hdb : db1.map strip_market = db2.map strip_market)
    (tid exit_reason now_date now_time : String) (exit_price commission : ℚ) (uid : Int)
    (mp1 mp2 : Option ℚ) :
    (close_trade_in_db db1 tid exit_price exit_reason commission uid now_date now_time mp1).1
      = (close_trade_in_db db2 tid exit_price exit_reason commission uid now_date now_time mp2).1 ∧
    (close_trade_in_db db1 tid exit_price exit_reason commission uid now_date now_time mp1).2.map
        (fun t => (t.pnl, t.pnl_percentage))
      = (close_trade_in_db db2 tid exit_price exit_reason commission uid now_date now_time mp2).2.map
        (fun t => (t.pnl, t.pnl_percentage)) := by
  have hms : (matches_close tid uid) ∘ strip_market = matches_close tid uid :=
    funext fun t => rfl
  have hfind : Option.map strip_market (db1.find? (matches_close tid uid))
      = Option.map strip_market (db2.find? (matches_close tid uid)) := by
    have e1 : (db1.map strip_market).find? (matches_close tid uid)
        = Option.map strip_market (db1.find? (matches_close tid uid)) := by
      rw [List.find?_map, hms]
    have e2 : (db2.map strip_market).find? (matches_close tid uid)
        = Option.map strip_market (db2.find? (matches_close tid uid)) := by
      rw [List.find?_map, hms]
    rw [← e1, ← e2, hdb]
  have proj_strip : ∀ l : List Trade,
      l.map (fun t => (t.pnl, t.pnl_percentage))
        = (l.map strip_market).map (fun t => (t.pnl, t.pnl_percentage)) := by
    intro l
    rw [List.map_map]
    rfl
  cases h1 : db1.find? (matches_close tid uid) with
  | none =>
    cases h2 : db2.find? (matches_close tid uid) with
    | none =>
      refine ⟨?_, ?_⟩ <;> simp only [close_trade_in_db, h1, h2]
      rw [proj_strip db1, proj_strip db2, hdb]
    | some tr2 =>
      rw [h1, h2] at hfind
      exact absurd hfind (by simp)
  | some tr1 =>
    cases h2 : db2.find? (matches_close tid uid) with
    | none =>
      rw [h1, h2] at hfind
      exact absurd hfind (by simp)
    | some tr2 =>
      rw [h1, h2] at hfind
      have hstrip : strip_market tr1 = strip_market tr2 := Option.some.inj hfind
      have htt0 := congrArg Trade.trade_type hstrip
      have hep0 := congrArg Trade.entry_price hstrip
      have hq0 := congrArg Trade.quantity hstrip
      have htt : tr1.trade_type = tr2.trade_type := htt0
      have hep : tr1.entry_price = tr2.entry_price := hep0
      have hq : tr1.quantity = tr2.quantity := hq0
      have hpnlv : close_pnl_value tr1 exit_price commission
          = close_pnl_value tr2 exit_price commission := by
        unfold close_pnl_value
        rw [htt, hep, hq]
      have hpctv : close_pct_value tr1 exit_price commission
          = close_pct_value tr2 exit_price commission := by
        unfold close_pct_value
        rw [hpnlv, hep, hq]
      rw [close_trade_in_db_found db1 tid exit_reason now_date now_time exit_price commission
        uid mp1 tr1 h1]
      rw [close_trade_in_db_found db2 tid exit_reason now_date now_time exit_price commission
        uid mp2 tr2 h2]
      refine ⟨rfl, ?_⟩
      rw [hpnlv, hpctv]
      have key : ∀ (l : List Trade) (mp : Option ℚ),
          (l.map (close_update tid uid exit_price now_date now_time exit_reason
              (close_pnl_value tr2 exit_price commission)
              (close_pct_value tr2 exit_price commission) commission mp)).map
            (fun t => (t.pnl, t.pnl_percentage))
          = (l.map strip_market).map (fun t =>
              if matches_close tid uid t then
                (some (close_pnl_value tr2 exit_price commission),
                 some (close_pct_value tr2 exit_price commission))
              else (t.pnl, t.pnl_percentage)) := by
        intro l mp
        rw [List.map_map, List.map_map]
        congr 1
        funext t
        have hmt : matches_close tid uid (strip_market t) = matches_close tid uid t := rfl
        simp only [Function.comp_apply, close_update, hmt]
        by_cases hm : matches_close tid uid t
        · rw [if_pos hm, if_pos hm]
        · rw [if_neg hm, if_neg hm]
          rfl
      rw [key db1 mp1, key db2 mp2, hdb]

/-- A successful insert makes the record retrievable by its trade id,
with every exit-side column still at its NULL default. -/
theorem save_round_trip (db : List Trade) (d : TradeInput) (ca : String) (db' : List Trade)
    (h : save_trade_to_db db d ca = (true, db')) :
    ∃ r : Trade, get_trade_from_db db' d.trade_id = some r ∧ r.status = d.status ∧
      r.exit_price = none ∧ r.exit_date = none ∧ r.exit_time = none ∧
      r.exit_reason = none ∧ r.pnl = none ∧ r.pnl_percentage = none := by
  unfold save_trade_to_db at h
  split at h
  · simp at h
  next hany =>
    simp only [Prod.mk.injEq, true_and] at h
    subst h
    refine ⟨save_record d ca, ?_, rfl, rfl, rfl, rfl, rfl, rfl, rfl⟩
    unfold get_trade_from_db
    rw [List.find?_append]
    have hnone : db.find? (fun t => decide (t.trade_id = d.trade_id)) = none := by
      rw [List.find?_eq_none]
      intro x hx hdec
      exact hany (List.any_eq_true.mpr ⟨x, hx, hdec⟩)
    rw [hnone]
    simp [List.find?, save_record]

/-- C9: a successful open never writes any exit-side field — reading
the stored record back by its trade id immediately afterwards returns
status OPEN with exitPrice, exitDate, exitTime, exitReason, pnl and
pnlPercent all absent. -/
theorem open_round_trip (db : List Trade) (form : OpenForm) (uid : Int) (username : String)
    (sv key : Bool) (quote : Option ℚ) (ts ed et ca : String) (db' : List Trade)
    (h : open_submit db form uid username sv key quote ts ed et ca = (true, db')) :
    ∃ r : Trade, get_trade_from_db db' (py_strip (py_upper form.symbol) ++ "_" ++ ts) = some r ∧
      r.status = "OPEN" ∧ r.exit_price = none ∧ r.exit_date = none ∧ r.exit_time = none ∧
      r.exit_reason = none ∧ r.pnl = none ∧ r.pnl_percentage = none := by
  unfold open_submit at h
  repeat' split at h
  all_goals (try dsimp only [] at h)
  all_goals first
    | exact save_round_trip _ _ _ _ h
    | simp at h

/-- C7 witness: closing the same trade with and without market prices
at entry and exit yields identical persisted P&L columns. -/
theorem market_price_informational_witness :
    ([sample_open_market].map strip_market = [sample_open].map strip_market) ∧
    ((close_trade_in_db [sample_open_market] "MSFT_1" 120 "out" 1 7 "d3" "t3" (some 119)).1
      = (close_trade_in_db [sample_open] "MSFT_1" 120 "out" 1 7 "d3" "t3" none).1 ∧
     (close_trade_in_db [sample_open_market] "MSFT_1" 120 "out" 1 7 "d3" "t3" (some 119)).2.map
        (fun t => (t.pnl, t.pnl_percentage))
      = (close_trade_in_db [sample_open] "MSFT_1" 120 "out" 1 7 "d3" "t3" none).2.map
        (fun t => (t.pnl, t.pnl_percentage))) :=
  ⟨rfl, market_price_informational [sample_open_market] [sample_open] rfl
    "MSFT_1" "out" "d3" "t3" 120 1 7 (some 119) none⟩

/-- C8: the live P&L embed uses the same directional formula as the
persisted close P&L but omits the commission, applied to the supplied
current price — closing at that price with commission c persists
exactly the live pnl minus c — and its per-share value is live pnl
over quantity only under the quantity-positive guard, so at quantity 0
the per-share value is omitted and no division is evaluated. -/
theorem live_pnl_spec (trade : Trade) (current_price commission : ℚ)
    (exit_reason now_date now_time : String) :
    (∃ t' : Trade, (close_trade_in_db [trade] trade.trade_id current_price exit_reason commission
        trade.user_id now_date now_time none).2 = [t'] ∧
      t'.pnl = some ((create_live_pnl_embed trade current_price).live_pnl - commission)) ∧
    ((create_live_pnl_embed trade current_price).per_share =
      if 0 < trade.quantity then
        some ((create_live_pnl_embed trade current_price).live_pnl / (trade.quantity : ℚ))
      else none) ∧
    (trade.quantity = 0 → (create_live_pnl_embed trade current_price).per_share = none) := by
  have hm : matches_close trade.trade_id trade.user_id trade = true := by
    simp [matches_close]
  have hfind : [trade].find? (matches_close trade.trade_id trade.user_id) = some trade := by
    simp [List.find?, hm]
  refine ⟨?_, ?_, ?_⟩
  · rw [close_trade_in_db_found [trade] trade.trade_id exit_reason now_date now_time
      current_price commission trade.user_id none trade hfind]
    refine ⟨_, rfl, ?_⟩
    simp only [close_update, hm, if_true]
    simp only [create_live_pnl_embed, close_pnl_value]
    by_cases hdir : trade.trade_type = "LONG" ∨ trade.trade_type = "CALL"
    · rw [if_pos hdir, if_pos hdir]
    · rw [if_neg hdir, if_neg hdir]
  · rfl
  · intro h0
    simp [create_live_pnl_embed, h0]

/-- C8 witness: at the zero-quantity sample trade the per-share value
is omitted. -/
theorem live_pnl_spec_witness :
    sample_zero_qty.quantity = 0 ∧
    (create_live_pnl_embed sample_zero_qty 120).per_share = none :=
  ⟨rfl, (live_pnl_spec sample_zero_qty 120 1 "out" "d3" "t3").2.2 rfl⟩

/-- C10: the by-id read has no ownership precondition — the result of
the live-P&L button is the same for any two callers, the record
returned by get_trade_from_db is the stored row selected by trade id
alone, and for any OPEN stored trade the button shows the full live
embed to any caller whenever a price is available, with no condition
relating the record's owner to the caller. -/
theorem get_by_id_no_ownership (db : List Trade) (tid : String) (c1 c2 : Int)
    (key : Bool) (price : Option ℚ) :
    (live_pnl_button db tid c1 key price = live_pnl_button db tid c2 key price) ∧
    (∀ td : Trade, get_trade_from_db db tid = some td → td ∈ db ∧ td.trade_id = tid) ∧
    (∀ td : Trade, get_trade_from_db db tid = some td → td.status = "OPEN" →
      ∀ p : ℚ, price = some p →
        live_pnl_button db tid c1 true price = some (create_live_pnl_embed td p)) := by
  refine ⟨rfl, ?_, ?_⟩
  · intro td h
    refine ⟨List.mem_of_find?_eq_some h, ?_⟩
    have := List.find?_some h
    simpa using this
  · intro td h hopen p hp
    subst hp
    simp [live_pnl_button, h, hopen]

/-- C10 witness: caller 8 obtains the live embed of user 7's open
trade through the button path. -/
theorem get_by_id_no_ownership_witness :
    (sample_open.user_id = 7 ∧ (8 : Int) ≠ 7 ∧
      get_trade_from_db [sample_open] "MSFT_1" = some sample_open ∧
      sample_open.status = "OPEN") ∧
    live_pnl_button [sample_open] "MSFT_1" 8 true (some 120)
      = some (create_live_pnl_embed sample_open 120) :=
  ⟨⟨rfl, by decide, rfl, rfl⟩,
    (get_by_id_no_ownership [sample_open] "MSFT_1" 8 9 true (some 120)).2.2
      sample_open rfl rfl 120 rfl⟩

/-- C9 witness: a concrete MARKET-priced open followed by the by-id
read returns an OPEN record with no exit fields. -/
theorem open_round_trip_witness :
    ∃ db' : List Trade,
      open_submit [] form_market 1 "u" true true (some 10) "TS" "d" "t" "c" = (true, db') ∧
      ∃ r : Trade,
        get_trade_from_db db' (py_strip (py_upper form_market.symbol) ++ "_" ++ "TS") = some r ∧
        r.status = "OPEN" ∧ r.exit_price = none ∧ r.pnl = none := by
  refine ⟨_, rfl, ?_⟩
  obtain ⟨r, hr, h1, h2, _, _, _, h3, _⟩ :=
    open_round_trip [] form_market 1 "u" true true (some 10) "TS" "d" "t" "c" _ rfl
  exact ⟨r, hr, h1, h2, h3⟩

end TradingJournal
